import Mathlib

/-!
Shallow embedding of the background-removal service's model lifecycle core
(`app/services/bg_removal.py`, `app/main.py`, `app/models/rembg_model.py`,
`app/models/withoutbg_model.py`, `app/config.py`).

Python dictionaries are modelled as association lists with unique keys,
object identity as an `id : Nat` drawn from a fresh counter, exceptions as
`Except`/`Option` results, and calls into the third-party inference
libraries (`rembg.new_session`, `WithoutBG.opensource()`, `remove`) as an
explicit environment `Env` of oracles that may succeed or fail.
-/

/-- Association-list lookup, modelling `name in d` / `d[name]` on a Python
dict (keys are unique in every reachable state). -/
def alookup {α : Type} (l : List (String × α)) (k : String) : Option α :=
  match l with
  | [] => none
  | (k1, v) :: t => if k1 = k then some v else alookup t k

/-- Association-list store, modelling `d[k] = v`: replaces the existing
entry in place, or appends a new entry (Python dict insertion order). -/
def aset {α : Type} (l : List (String × α)) (k : String) (v : α) :
    List (String × α) :=
  match l with
  | [] => [(k, v)]
  | (k1, v1) :: t => if k1 = k then (k, v) :: t else (k1, v1) :: aset t k v

/-- Association-list delete, modelling `del d[k]` (removes the key's
entries; identical to Python's single-entry delete since keys are unique). -/
def aerase {α : Type} (l : List (String × α)) (k : String) :
    List (String × α) :=
  match l with
  | [] => []
  | (k1, v) :: t => if k1 = k then aerase t k else (k1, v) :: aerase t k

/-- A decoded bitmap, as far as the claims need it: `PIL.Image` size and
mode. -/
structure Image where
  width : Nat
  height : Nat
  mode : String
deriving DecidableEq

/-- A registered model class (`Type[BackgroundRemover]`): its Python class
name and the value of the `name` property its instances report
(`RembgRemover` reports "rembg", `WithoutBgRemover` reports "withoutbg"). -/
structure ModelClass where
  className : String
  modelName : String
deriving DecidableEq

/-- A live backend object. `id` is the Python object identity (fresh per
constructor call); `session` models `RembgRemover._session` /
`WithoutBgRemover._model`, which both `__init__` bodies set to `None`. -/
structure Instance where
  id : Nat
  className : String
  name : String
  session : Option Nat
deriving DecidableEq

/-- Environment of external effects: whether a class's constructor body
completes, what `initialize` (rembg `new_session` / `WithoutBG.opensource`)
yields for a model name (`none` = the wrapped `RuntimeError`), and what the
third-party inference call returns for a loaded session. -/
structure Env where
  ctorOk : String → Bool
  newSession : String → Option Nat
  infer : Nat → Image → Option Image

/-- Exceptions raised by the embedded code. `unknownModel` is the
`ValueError` of `ModelRegistry.get`; `initFailed` the `RuntimeError` of the
backends' `initialize`; `processingFailed` the `RuntimeError` of
`remove_background`; `ctorFailed` a constructor-body exception; `keyError`
a Python `KeyError` (unreachable in the embedded paths). -/
inductive RegError where
  | unknownModel (name : String) (available : List String)
  | ctorFailed (className : String)
  | initFailed (name : String)
  | processingFailed (name : String)
  | keyError (name : String)
deriving DecidableEq

/-- One logger call, kept structured.  Only the calls the claims talk about
are recorded; `initComplete k` is
`"Initialization complete. k models ready"`. -/
inductive LogEvent where
  | registered (name : String)
  | creatingInstance (name : String)
  | initStarted (name : String)
  | initSuccess (name : String)
  | initFailedEvent (name : String)
  | lazyLoadWarning (name : String)
  | initComplete (ready : Nat)
  | bgTaskFailed
deriving DecidableEq

/-- The mutable state of a `ModelRegistry` object, plus bookkeeping that
makes the claims statable: `nextId` allocates object identities,
`ctorTrace` records every constructor invocation (by class name, in
order), `initTrace` records every `initialize` invocation (by model name),
and `log` the structured logger output. -/
structure RegistryState where
  modelClasses : List (String × ModelClass)
  modelInstances : List (String × Instance)
  nextId : Nat
  ctorTrace : List String
  initTrace : List String
  log : List LogEvent
deriving DecidableEq

/-- `model_class()`: runs the constructor body.  Both concrete `__init__`
bodies only set the session field to `None`; the body can raise (modelled
by `env.ctorOk`), in which case nothing is allocated into the registry. -/
def construct (env : Env) (c : ModelClass) (st : RegistryState) :
    Option (Instance × RegistryState) :=
  if env.ctorOk c.className then
    some ({ id := st.nextId, className := c.className,
            name := c.modelName, session := none },
          { st with nextId := st.nextId + 1,
                    ctorTrace := st.ctorTrace ++ [c.className] })
  else
    none

/-- `instance.initialize()` for either backend: asks the environment for a
session (`new_session(self._model_name)` / `WithoutBG.opensource()`) and
stores it, or raises (`none`). -/
def initBackend (env : Env) (inst : Instance) : Option Instance :=
  match env.newSession inst.name with
  | some s => some { inst with session := some s }
  | none => none

/-- `RembgRemover.remove_background` (the `WithoutBgRemover` variant has
the same shape): lazily runs `initialize` when `self._session is None`
(its `RuntimeError` propagates), then runs the third-party `remove` under
a `try` that re-raises failures as a processing `RuntimeError`, and
converts the result to RGBA when needed. -/
def removeBackground (env : Env) (inst : Instance) (img : Image) :
    Except RegError (Image × Instance) :=
  let afterInit : Except RegError Instance :=
    if inst.session.isNone then
      match initBackend env inst with
      | some i => Except.ok i
      | none => Except.error (RegError.initFailed inst.name)
    else
      Except.ok inst
  match afterInit with
  | Except.error e => Except.error e
  | Except.ok inst1 =>
    match inst1.session with
    | none => Except.error (RegError.processingFailed inst1.name)
    | some s =>
      match env.infer s img with
      | none => Except.error (RegError.processingFailed inst1.name)
      | some r =>
        Except.ok ((if r.mode = "RGBA" then r else { r with mode := "RGBA" }),
                   inst1)

namespace ModelRegistry

/-- `ModelRegistry.register(model_class)`: constructs a temporary instance
just to read its `name` property, stores the class under that name, and
discards the temporary.  A constructor exception propagates (`none`). -/
def register (env : Env) (c : ModelClass) (st : RegistryState) :
    Option RegistryState :=
  match construct env c st with
  | none => none
  | some (temp, st1) =>
    some { st1 with
      modelClasses := aset st1.modelClasses temp.name c,
      log := st1.log ++ [LogEvent.registered temp.name] }

/-- `ModelRegistry.get(name)`: raises `ValueError` naming the request and
the available models when `name` was never registered; otherwise lazily
constructs and stores an instance on first access, and returns
`self._model_instances[name]`. -/
def get (env : Env) (name : String) (st : RegistryState) :
    Except RegError (Instance × RegistryState) :=
  match alookup st.modelClasses name with
  | none =>
    Except.error (RegError.unknownModel name (st.modelClasses.map Prod.fst))
  | some c =>
    let ensured : Except RegError RegistryState :=
      match alookup st.modelInstances name with
      | some _ => Except.ok st
      | none =>
        match construct env c st with
        | none => Except.error (RegError.ctorFailed c.className)
        | some (inst, st1) =>
          Except.ok { st1 with
            modelInstances := aset st1.modelInstances name inst,
            log := st1.log ++ [LogEvent.creatingInstance name] }
    match ensured with
    | Except.error e => Except.error e
    | Except.ok st2 =>
      match alookup st2.modelInstances name with
      | some inst => Except.ok (inst, st2)
      | none => Except.error (RegError.keyError name)

/-- The `try:` body of one iteration of `ModelRegistry.initialize_all`:
construct the instance if absent, look it up, and run its `initialize`.
`Sum.inl` carries the state at the point an exception is raised (earlier
mutations persist), `Sum.inr` the state after success. -/
def initAllTryBody (env : Env) (name : String) (c : ModelClass)
    (st : RegistryState) : Sum RegistryState RegistryState :=
  let step1 : Sum RegistryState RegistryState :=
    match alookup st.modelInstances name with
    | some _ => Sum.inr st
    | none =>
      match construct env c st with
      | none => Sum.inl st
      | some (inst, st1) =>
        Sum.inr { st1 with
          modelInstances := aset st1.modelInstances name inst,
          log := st1.log ++ [LogEvent.creatingInstance name] }
  match step1 with
  | Sum.inl s => Sum.inl s
  | Sum.inr st1 =>
    match alookup st1.modelInstances name with
    | none => Sum.inl st1
    | some inst =>
      let st2 := { st1 with
        initTrace := st1.initTrace ++ [name],
        log := st1.log ++ [LogEvent.initStarted name] }
      match initBackend env inst with
      | none => Sum.inl st2
      | some inst1 =>
        Sum.inr { st2 with
          modelInstances := aset st2.modelInstances name inst1,
          log := st2.log ++ [LogEvent.initSuccess name] }

/-- One iteration of the `initialize_all` loop: the `try` body above plus
the `except` handler, which logs the failure, evicts the partially
constructed instance so a later `get` retries fresh, and continues. -/
def initAllStep (env : Env) (name : String) (c : ModelClass)
    (st : RegistryState) : RegistryState :=
  match initAllTryBody env name c st with
  | Sum.inr st1 => st1
  | Sum.inl stE =>
    { stE with
      modelInstances := aerase stE.modelInstances name,
      log := stE.log ++
        [LogEvent.initFailedEvent name, LogEvent.lazyLoadWarning name] }

/-- `ModelRegistry.initialize_all()`: iterates the registered classes in
order, isolating each model's failure, then logs
`"Initialization complete. {len(self._model_instances)} models ready"`.
The second component is the function's Python return value — literally
`None` (the count of ready models is only logged, never returned). -/
def initAllModels (env : Env) (st : RegistryState) :
    RegistryState × Option Nat :=
  let st1 := st.modelClasses.foldl (fun s p => initAllStep env p.1 p.2 s) st
  ({ st1 with
     log := st1.log ++ [LogEvent.initComplete st1.modelInstances.length] },
   none)

end ModelRegistry

/-- `background_model_initialization` from `app/main.py`: after the
settling sleep, one `try` block runs `get_model("rembg")`, sleeps, then
`get_model("withoutbg")`; any exception is caught and logged, and the task
returns.  Note: the task calls `get` only — it never calls
`initialize()` on the instances it obtains. -/
def backgroundModelInit (env : Env) (st : RegistryState) : RegistryState :=
  match ModelRegistry.get env "rembg" st with
  | Except.error _ => { st with log := st.log ++ [LogEvent.bgTaskFailed] }
  | Except.ok (_, st1) =>
    match ModelRegistry.get env "withoutbg" st1 with
    | Except.error _ => { st1 with log := st1.log ++ [LogEvent.bgTaskFailed] }
    | Except.ok (_, st2) => st2

/-- `Settings` from `app/config.py`: the complete configuration surface of
the service.  It has no warmup/staggered-initialization mode field of any
kind. -/
structure Settings where
  host : String
  port : Nat
  log_level : String
  max_file_size_mb : Nat
  allowed_extensions : List String
  default_model : String
deriving DecidableEq

/-- `Settings()` resolved from an environment-variable map with the
defaults of `app/config.py` (pydantic reads each field from the matching
upper-case variable). -/
def mkSettings (ev : String → Option String) : Settings :=
  { host := (ev "HOST").getD "0.0.0.0",
    port := ((ev "PORT").bind String.toNat?).getD 8000,
    log_level := (ev "LOG_LEVEL").getD "INFO",
    max_file_size_mb := ((ev "MAX_FILE_SIZE_MB").bind String.toNat?).getD 10,
    allowed_extensions := ["jpg", "jpeg", "png", "webp"],
    default_model := (ev "DEFAULT_MODEL").getD "rembg" }

/-- `max_file_size_bytes` property of `Settings`. -/
def Settings.max_file_size_bytes (s : Settings) : Nat :=
  s.max_file_size_mb * 1024 * 1024

/-- The two registered classes (module-level code of `bg_removal.py`). -/
def RembgClass : ModelClass :=
  { className := "RembgRemover", modelName := "rembg" }

/-- `WithoutBgRemover` as registered. -/
def WithoutBgClass : ModelClass :=
  { className := "WithoutBgRemover", modelName := "withoutbg" }

/-- A fresh `ModelRegistry()`. -/
def emptyRegistry : RegistryState :=
  { modelClasses := [], modelInstances := [], nextId := 0,
    ctorTrace := [], initTrace := [], log := [] }

/-- The module-level singleton setup of `bg_removal.py`:
`_registry.register(RembgRemover); _registry.register(WithoutBgRemover)`. -/
def startupRegistry (env : Env) : Option RegistryState :=
  (ModelRegistry.register env RembgClass emptyRegistry).bind
    (ModelRegistry.register env WithoutBgClass)

/-- An environment in which every constructor and every model load
succeeds. -/
def envOk : Env :=
  { ctorOk := fun _ => true,
    newSession := fun _ => some 0,
    infer := fun _ img => some { img with mode := "RGBA" } }

/-- The registry state right after module import under `envOk`
(both classes registered, no instances yet; the two temporaries consumed
ids 0 and 1). -/
def st0 : RegistryState :=
  { modelClasses := [("rembg", RembgClass), ("withoutbg", WithoutBgClass)],
    modelInstances := [],
    nextId := 2,
    ctorTrace := ["RembgRemover", "WithoutBgRemover"],
    initTrace := [],
    log := [LogEvent.registered "rembg", LogEvent.registered "withoutbg"] }

/-- An environment in which the `RembgRemover` constructor body raises but
everything about `WithoutBgRemover` works. -/
def envRembgCtorFails : Env :=
  { ctorOk := fun cl => if cl = "RembgRemover" then false else true,
    newSession := fun _ => some 0,
    infer := fun _ img => some { img with mode := "RGBA" } }

/-- An environment in which every constructor works but every model load
(`initialize`) fails. -/
def envLoadFails : Env :=
  { ctorOk := fun _ => true,
    newSession := fun _ => none,
    infer := fun _ img => some { img with mode := "RGBA" } }

/-- A generic succeeding backend class used in two-backend scenarios. -/
def ClassA : ModelClass := { className := "BackendA", modelName := "a" }

/-- A generic backend class whose model load will be made to fail. -/
def ClassB : ModelClass := { className := "BackendB", modelName := "b" }

/-- A registry with two given backends registered and no instances yet. -/
def twoRegistry (a : String) (ca : ModelClass) (b : String) (cb : ModelClass) :
    RegistryState :=
  { modelClasses := [(a, ca), (b, cb)],
    modelInstances := [],
    nextId := 0,
    ctorTrace := [], initTrace := [], log := [] }

/-- The two generic backends registered, no instances. -/
def stAB : RegistryState := twoRegistry "a" ClassA "b" ClassB

/-- An environment where backend "a" loads fine and backend "b"'s
`initialize` raises. -/
def envBFails : Env :=
  { ctorOk := fun _ => true,
    newSession := fun n => if n = "b" then none else some 7,
    infer := fun _ img => some { img with mode := "RGBA" } }

/-!
Concurrency model.  The service runs on a single asyncio event loop
(`async def` FastAPI handlers plus the one background task); Python code
between two `await` points runs atomically on that loop, and
`ModelRegistry.get` contains no `await`, so every concurrent execution of
several `get` calls is an interleaving of whole atomic `get` steps.
-/

/-- One atomic (await-free) step of a task: a whole `get_model(name)` call,
or an `await asyncio.sleep(..)` yield point. -/
inductive AtomicOp where
  | getOp (name : String)
  | sleepOp
deriving DecidableEq

/-- Run one atomic step, accumulating the registry state and the sequence
of results the `get` calls returned to their callers. -/
def execOp (env : Env) (acc : RegistryState × List (Except RegError Instance))
    (op : AtomicOp) : RegistryState × List (Except RegError Instance) :=
  match op with
  | AtomicOp.sleepOp => acc
  | AtomicOp.getOp n =>
    match ModelRegistry.get env n acc.1 with
    | Except.ok (i, st1) => (st1, acc.2 ++ [Except.ok i])
    | Except.error e => (acc.1, acc.2 ++ [Except.error e])

/-- Run a whole schedule of atomic steps from a state. -/
def execTrace (env : Env) (ops : List AtomicOp) (st : RegistryState) :
    RegistryState × List (Except RegError Instance) :=
  ops.foldl (execOp env) (st, [])

/-- The instance `get("rembg")` constructs first on the startup registry
under `envOk`. -/
def instW : Instance :=
  { id := 2, className := "RembgRemover", name := "rembg", session := none }

/-- The registry state right after that first `get("rembg")`. -/
def stW : RegistryState :=
  { modelClasses := [("rembg", RembgClass), ("withoutbg", WithoutBgClass)],
    modelInstances := [("rembg", instW)],
    nextId := 3,
    ctorTrace := ["RembgRemover", "WithoutBgRemover", "RembgRemover"],
    initTrace := [],
    log := [LogEvent.registered "rembg", LogEvent.registered "withoutbg",
            LogEvent.creatingInstance "rembg"] }

/-- The instance `get("withoutbg")` constructs next under `envOk`. -/
def instW2 : Instance :=
  { id := 3, className := "WithoutBgRemover", name := "withoutbg",
    session := none }

/-- The registry state after the warmup task's two `get` calls. -/
def stW2 : RegistryState :=
  { modelClasses := [("rembg", RembgClass), ("withoutbg", WithoutBgClass)],
    modelInstances := [("rembg", instW), ("withoutbg", instW2)],
    nextId := 4,
    ctorTrace := ["RembgRemover", "WithoutBgRemover", "RembgRemover",
                  "WithoutBgRemover"],
    initTrace := [],
    log := [LogEvent.registered "rembg", LogEvent.registered "withoutbg",
            LogEvent.creatingInstance "rembg",
            LogEvent.creatingInstance "withoutbg"] }

/-- A constructed-but-unloaded instance of the generic backend "a". -/
def instA0 : Instance :=
  { id := 0, className := "BackendA", name := "a", session := none }

/-- A one-backend registry in which "a" has been constructed but not yet
loaded. -/
def stA1 : RegistryState :=
  { modelClasses := [("a", ClassA)], modelInstances := [("a", instA0)],
    nextId := 1, ctorTrace := ["BackendA"], initTrace := [], log := [] }

/-- A small RGB input bitmap. -/
def img0 : Image := { width := 2, height := 2, mode := "RGB" }

/-- The registry state after `register(RembgRemover)` on a fresh registry
under `envOk` (used as a concrete witness input). -/
def stReg1 : RegistryState :=
  { modelClasses := [("rembg", RembgClass)], modelInstances := [],
    nextId := 1, ctorTrace := ["RembgRemover"], initTrace := [],
    log := [LogEvent.registered "rembg"] }

/-- `Interleave a b c`: `c` is an event-loop serialization of the two
tasks `a` and `b` (each task's own steps stay in order). -/
inductive Interleave : List AtomicOp → List AtomicOp → List AtomicOp → Prop
  | nil : Interleave [] [] []
  | left {a as bs cs} : Interleave as bs cs → Interleave (a :: as) bs (a :: cs)
  | right {b as bs cs} : Interleave as bs cs → Interleave as (b :: bs) (b :: cs)

theorem startupRegistry_envOk : startupRegistry envOk = some st0 := by
  decide

theorem alookup_aset_self {α : Type} (l : List (String × α)) (k : String)
    (v : α) : alookup (aset l k v) k = some v := by
  induction l with
  | nil => simp [aset, alookup]
  | cons h t ih =>
    obtain ⟨k1, v1⟩ := h
    by_cases hk : k1 = k
    · simp [aset, alookup, hk]
    · simp [aset, alookup, hk, ih]

theorem alookup_aset_ne {α : Type} (l : List (String × α)) (k k' : String)
    (v : α) (hne : k ≠ k') : alookup (aset l k v) k' = alookup l k' := by
  induction l with
  | nil => simp [aset, alookup, hne]
  | cons h t ih =>
    obtain ⟨k1, v1⟩ := h
    by_cases hk : k1 = k
    · subst hk
      simp [aset, alookup, hne]
    · simp [aset, alookup, hk, ih]

theorem alookup_aerase_self {α : Type} (l : List (String × α)) (k : String) :
    alookup (aerase l k) k = none := by
  induction l with
  | nil => simp [aerase, alookup]
  | cons h t ih =>
    obtain ⟨k1, v1⟩ := h
    by_cases hk : k1 = k
    · simp [aerase, hk, ih]
    · simp [aerase, alookup, hk, ih]

theorem alookup_aerase_ne {α : Type} (l : List (String × α)) (k k' : String)
    (hne : k ≠ k') : alookup (aerase l k) k' = alookup l k' := by
  induction l with
  | nil => simp [aerase]
  | cons h t ih =>
    obtain ⟨k1, v1⟩ := h
    by_cases hk : k1 = k
    · subst hk
      simp [aerase, alookup, hne, ih]
    · simp [aerase, alookup, hk, ih]

theorem getLast?_append_singleton {α : Type} (l : List α) (a : α) :
    (l ++ [a]).getLast? = some a := by
  simp [List.getLast?_concat]

/-- `get` on a name whose instance already exists returns that instance
and leaves the state untouched. -/
theorem get_present (env : Env) (n : String) (st : RegistryState)
    (c : ModelClass) (i : Instance)
    (hc : alookup st.modelClasses n = some c)
    (hi : alookup st.modelInstances n = some i) :
    ModelRegistry.get env n st = Except.ok (i, st) := by
  simp [ModelRegistry.get, hc, hi]

/-- `get` on a registered but not yet constructed name constructs exactly
one fresh instance, stores it, and returns it. -/
theorem get_absent (env : Env) (n : String) (st : RegistryState)
    (c : ModelClass)
    (hc : alookup st.modelClasses n = some c)
    (hi : alookup st.modelInstances n = none)
    (hk : env.ctorOk c.className = true) :
    ModelRegistry.get env n st = Except.ok
      ({ id := st.nextId, className := c.className,
         name := c.modelName, session := none },
       { st with
         nextId := st.nextId + 1,
         ctorTrace := st.ctorTrace ++ [c.className],
         modelInstances := aset st.modelInstances n
           { id := st.nextId, className := c.className,
             name := c.modelName, session := none },
         log := st.log ++ [LogEvent.creatingInstance n] }) := by
  simp [ModelRegistry.get, hc, hi, construct, hk, alookup_aset_self]

/-- Inversion principle: the only two ways `get` can return. -/
theorem get_ok_elim (env : Env) (m : String) (st : RegistryState)
    (j : Instance) (stA : RegistryState)
    (hg : ModelRegistry.get env m st = Except.ok (j, stA)) :
    ∃ c, alookup st.modelClasses m = some c ∧
      ((alookup st.modelInstances m = some j ∧ stA = st)
       ∨ (alookup st.modelInstances m = none
          ∧ env.ctorOk c.className = true
          ∧ j = { id := st.nextId, className := c.className,
                  name := c.modelName, session := none }
          ∧ stA = { st with
              nextId := st.nextId + 1,
              ctorTrace := st.ctorTrace ++ [c.className],
              modelInstances := aset st.modelInstances m j,
              log := st.log ++ [LogEvent.creatingInstance m] })) := by
  cases hcm : alookup st.modelClasses m with
  | none => simp [ModelRegistry.get, hcm] at hg
  | some c =>
    refine ⟨c, rfl, ?_⟩
    cases him : alookup st.modelInstances m with
    | some i =>
      have h2 := (get_present env m st c i hcm him).symm.trans hg
      injection h2 with h3
      injection h3 with h4 h5
      exact Or.inl ⟨congrArg some h4, h5.symm⟩
    | none =>
      cases hk : env.ctorOk c.className with
      | false => simp [ModelRegistry.get, hcm, him, construct, hk] at hg
      | true =>
        have h2 := (get_absent env m st c hcm him hk).symm.trans hg
        injection h2 with h3
        injection h3 with h4 h5
        exact Or.inr ⟨rfl, rfl, h4.symm, by rw [← h5, h4]⟩

/-- A second `get` for the same name returns the very same instance and
leaves the state unchanged. -/
theorem get_repeat (env env2 : Env) (n : String) (st : RegistryState)
    (j : Instance) (stA : RegistryState)
    (hg : ModelRegistry.get env n st = Except.ok (j, stA)) :
    ModelRegistry.get env2 n stA = Except.ok (j, stA) := by
  obtain ⟨c, hc, hcase⟩ := get_ok_elim env n st j stA hg
  cases hcase with
  | inl h =>
    obtain ⟨hj, hst⟩ := h
    rw [hst]
    exact get_present env2 n st c j hc hj
  | inr h =>
    obtain ⟨him, hk, hj, hst⟩ := h
    rw [hst]
    exact get_present env2 n _ c j hc (alookup_aset_self _ _ _)

/-- `get` for any name never removes or replaces an existing instance
entry for any name. -/
theorem get_preserves_entry (env : Env) (m n : String) (st : RegistryState)
    (i j : Instance) (stA : RegistryState)
    (hn : alookup st.modelInstances n = some i)
    (hg : ModelRegistry.get env m st = Except.ok (j, stA)) :
    alookup stA.modelInstances n = some i := by
  obtain ⟨c, hc, hcase⟩ := get_ok_elim env m st j stA hg
  cases hcase with
  | inl h =>
    obtain ⟨_, hst⟩ := h
    subst hst
    exact hn
  | inr h =>
    obtain ⟨him, _, _, hst⟩ := h
    subst hst
    by_cases hmn : m = n
    · subst hmn
      rw [him] at hn
      exact absurd hn (by simp)
    · show alookup (aset st.modelInstances m j) n = some i
      rw [alookup_aset_ne _ _ _ _ hmn]
      exact hn

/-- Claim C5: for every name that was never registered, `get` fails with
the `ValueError` that names the requested model and lists the actually
registered names. -/
theorem unknownModelGetFails (env : Env) (n : String) (st : RegistryState)
    (h : alookup st.modelClasses n = none) :
    ModelRegistry.get env n st
      = Except.error (RegError.unknownModel n (st.modelClasses.map Prod.fst)) := by
  simp [ModelRegistry.get, h]

/-- Witness for C5: requesting model "c" on the startup registry fails
naming "c" and listing ["rembg", "withoutbg"]. -/
theorem unknownModelGetFails_witness :
    ModelRegistry.get envOk "c" st0
      = Except.error (RegError.unknownModel "c" ["rembg", "withoutbg"]) :=
  unknownModelGetFails envOk "c" st0 (by decide)

/-- Claim C10: `register(model_class)` constructs exactly one temporary
instance (one new constructor invocation, one consumed object id), keys
the class mapping by that temporary's `name` property, and leaves the
instance mapping unchanged. -/
theorem registerFrame (env : Env) (c : ModelClass) (st stA : RegistryState)
    (h : ModelRegistry.register env c st = some stA) :
    stA.modelInstances = st.modelInstances
    ∧ stA.modelClasses = aset st.modelClasses c.modelName c
    ∧ stA.ctorTrace = st.ctorTrace ++ [c.className]
    ∧ stA.nextId = st.nextId + 1
    ∧ stA.initTrace = st.initTrace := by
  cases hk : env.ctorOk c.className with
  | false => simp [ModelRegistry.register, construct, hk] at h
  | true =>
    simp [ModelRegistry.register, construct, hk] at h
    subst h
    exact ⟨rfl, rfl, rfl, rfl, rfl⟩

/-- Witness for C10 at a concrete registration on the empty registry. -/
theorem registerFrame_witness :
    stReg1.modelInstances = emptyRegistry.modelInstances
    ∧ stReg1.modelClasses
        = aset emptyRegistry.modelClasses RembgClass.modelName RembgClass
    ∧ stReg1.ctorTrace = emptyRegistry.ctorTrace ++ [RembgClass.className]
    ∧ stReg1.nextId = emptyRegistry.nextId + 1
    ∧ stReg1.initTrace = emptyRegistry.initTrace :=
  registerFrame envOk RembgClass emptyRegistry stReg1 (by decide)

theorem count_append_singleton_self (l : List String) (x : String) :
    (l ++ [x]).count x = l.count x + 1 := by
  simp [List.count_append]

/-- Claim C2: `get` contains no await point, so on the service's event
loop each call runs atomically; under any interleaving of two tasks that
each call `get(n)` on a registered, not-yet-constructed name, the
registered constructor runs exactly once, and both callers receive the
single instance the winner constructed. -/
theorem concurrentGetConstructsOnce (env : Env) (n : String)
    (c : ModelClass) (st : RegistryState)
    (hc : alookup st.modelClasses n = some c)
    (hi : alookup st.modelInstances n = none)
    (hk : env.ctorOk c.className = true) :
    ∀ cs, Interleave [AtomicOp.getOp n] [AtomicOp.getOp n] cs →
      (execTrace env cs st).1.ctorTrace.count c.className
          = st.ctorTrace.count c.className + 1
      ∧ ∃ i, (execTrace env cs st).2 = [Except.ok i, Except.ok i] := by
  have hga := get_absent env n st c hc hi hk
  set inst : Instance :=
    { id := st.nextId, className := c.className,
      name := c.modelName, session := none } with hinst
  set st1 : RegistryState :=
    { st with
      nextId := st.nextId + 1,
      ctorTrace := st.ctorTrace ++ [c.className],
      modelInstances := aset st.modelInstances n inst,
      log := st.log ++ [LogEvent.creatingInstance n] } with hst1
  have hc1 : alookup st1.modelClasses n = some c := hc
  have hi1 : alookup st1.modelInstances n = some inst :=
    alookup_aset_self st.modelInstances n inst
  have hgp := get_present env n st1 c inst hc1 hi1
  intro cs hI
  have hrun : execTrace env cs st = (st1, [Except.ok inst, Except.ok inst]) := by
    cases hI with
    | left h1 =>
      cases h1 with
      | right h2 =>
        cases h2 with
        | nil => simp [execTrace, execOp, hga, hgp]
    | right h1 =>
      cases h1 with
      | left h2 =>
        cases h2 with
        | nil => simp [execTrace, execOp, hga, hgp]
  rw [hrun]
  refine ⟨?_, inst, rfl⟩
  show st1.ctorTrace.count c.className = st.ctorTrace.count c.className + 1
  rw [hst1]
  exact count_append_singleton_self st.ctorTrace c.className

/-- Witness for C2: both serializations of two simultaneous
`get("rembg")` calls on the freshly imported registry construct once and
hand both callers the same instance. -/
theorem concurrentGetConstructsOnce_witness :
    (execTrace envOk [AtomicOp.getOp "rembg", AtomicOp.getOp "rembg"] st0).1.ctorTrace.count
        RembgClass.className
      = st0.ctorTrace.count RembgClass.className + 1
    ∧ ∃ i, (execTrace envOk [AtomicOp.getOp "rembg", AtomicOp.getOp "rembg"] st0).2
      = [Except.ok i, Except.ok i] :=
  concurrentGetConstructsOnce envOk "rembg" RembgClass st0
    (by decide) (by decide) (by decide)
    [AtomicOp.getOp "rembg", AtomicOp.getOp "rembg"]
    (Interleave.left (Interleave.right Interleave.nil))

/-- One `initialize_all` iteration on a name whose instance already
exists: on a successful load the entry keeps its identity and gains the
session; on a failed load the entry is evicted. -/
theorem initAllStep_present (env : Env) (m : String) (c : ModelClass)
    (st : RegistryState) (i : Instance)
    (hi : alookup st.modelInstances m = some i) :
    (∃ s, env.newSession i.name = some s ∧
      alookup (ModelRegistry.initAllStep env m c st).modelInstances m
        = some { i with session := some s })
    ∨ (env.newSession i.name = none ∧
      alookup (ModelRegistry.initAllStep env m c st).modelInstances m = none) := by
  cases hs : env.newSession i.name with
  | some s =>
    refine Or.inl ⟨s, rfl, ?_⟩
    simp [ModelRegistry.initAllStep, ModelRegistry.initAllTryBody, hi,
      initBackend, hs, alookup_aset_self]
  | none =>
    refine Or.inr ⟨rfl, ?_⟩
    simp [ModelRegistry.initAllStep, ModelRegistry.initAllTryBody, hi,
      initBackend, hs, alookup_aerase_self]

/-- One `initialize_all` iteration for name `m` never touches the instance
entry of a different name `n`. -/
theorem initAllStep_lookup_ne (env : Env) (m n : String) (c : ModelClass)
    (st : RegistryState) (hne : m ≠ n) :
    alookup (ModelRegistry.initAllStep env m c st).modelInstances n
      = alookup st.modelInstances n := by
  cases hi : alookup st.modelInstances m with
  | some i =>
    cases hs : env.newSession i.name with
    | some s =>
      simp [ModelRegistry.initAllStep, ModelRegistry.initAllTryBody, hi,
        initBackend, hs, alookup_aset_ne, hne]
    | none =>
      simp [ModelRegistry.initAllStep, ModelRegistry.initAllTryBody, hi,
        initBackend, hs, alookup_aerase_ne, hne]
  | none =>
    cases hk : env.ctorOk c.className with
    | false =>
      simp [ModelRegistry.initAllStep, ModelRegistry.initAllTryBody, hi,
        construct, hk, alookup_aerase_ne, hne]
    | true =>
      cases hs : env.newSession c.modelName with
      | some s =>
        simp [ModelRegistry.initAllStep, ModelRegistry.initAllTryBody, hi,
          construct, hk, initBackend, hs, alookup_aset_self,
          alookup_aset_ne, hne]
      | none =>
        simp [ModelRegistry.initAllStep, ModelRegistry.initAllTryBody, hi,
          construct, hk, initBackend, hs, alookup_aset_self,
          alookup_aerase_ne, alookup_aset_ne, hne]

/-- One `initialize_all` iteration never changes the class mapping. -/
theorem initAllStep_classes (env : Env) (m : String) (c : ModelClass)
    (st : RegistryState) :
    (ModelRegistry.initAllStep env m c st).modelClasses = st.modelClasses := by
  cases hi : alookup st.modelInstances m with
  | some i =>
    cases hs : env.newSession i.name with
    | some s =>
      simp [ModelRegistry.initAllStep, ModelRegistry.initAllTryBody, hi,
        initBackend, hs]
    | none =>
      simp [ModelRegistry.initAllStep, ModelRegistry.initAllTryBody, hi,
        initBackend, hs]
  | none =>
    cases hk : env.ctorOk c.className with
    | false =>
      simp [ModelRegistry.initAllStep, ModelRegistry.initAllTryBody, hi,
        construct, hk]
    | true =>
      cases hs : env.newSession c.modelName with
      | some s =>
        simp [ModelRegistry.initAllStep, ModelRegistry.initAllTryBody, hi,
          construct, hk, initBackend, hs, alookup_aset_self]
      | none =>
        simp [ModelRegistry.initAllStep, ModelRegistry.initAllTryBody, hi,
          construct, hk, initBackend, hs, alookup_aset_self]

/-- The `initialize_all` loop over classes that do not mention `n` leaves
`n`'s instance entry untouched. -/
theorem initAllFold_lookup_not_mem (env : Env) (n : String) :
    ∀ (l : List (String × ModelClass)) (st : RegistryState),
      n ∉ l.map Prod.fst →
      alookup ((l.foldl (fun s p => ModelRegistry.initAllStep env p.1 p.2 s) st)).modelInstances n
        = alookup st.modelInstances n := by
  intro l
  induction l with
  | nil => intro st _; rfl
  | cons p t ih =>
    intro st hmem
    obtain ⟨m, c⟩ := p
    simp only [List.map, List.mem_cons] at hmem
    push_neg at hmem
    obtain ⟨hne, hmem2⟩ := hmem
    simp only [List.foldl]
    rw [ih _ (by simpa using hmem2)]
    exact initAllStep_lookup_ne env m n c st (fun h => hne h.symm)

/-- The `initialize_all` loop preserves an existing instance entry's
identity unless that entry's own load fails, in which case it is evicted. -/
theorem initAllFold_preserve (env : Env) (n : String) (i : Instance) :
    ∀ (l : List (String × ModelClass)) (st : RegistryState),
      (l.map Prod.fst).Nodup →
      alookup st.modelInstances n = some i →
      (∃ i', alookup ((l.foldl (fun s p => ModelRegistry.initAllStep env p.1 p.2 s) st)).modelInstances n
          = some i' ∧ i'.id = i.id ∧ i'.name = i.name)
      ∨ (alookup ((l.foldl (fun s p => ModelRegistry.initAllStep env p.1 p.2 s) st)).modelInstances n
          = none ∧ env.newSession i.name = none) := by
  intro l
  induction l with
  | nil =>
    intro st _ hi
    exact Or.inl ⟨i, hi, rfl, rfl⟩
  | cons p t ih =>
    intro st hnd hi
    obtain ⟨m, c⟩ := p
    simp only [List.map, List.nodup_cons] at hnd
    obtain ⟨hnmem, hnd2⟩ := hnd
    by_cases hmn : m = n
    · subst hmn
      have hstep := initAllStep_present env m c st i hi
      simp only [List.foldl]
      rcases hstep with ⟨s, hs, hlook⟩ | ⟨hs, hlook⟩
      · left
        refine ⟨{ i with session := some s }, ?_, rfl, rfl⟩
        rw [initAllFold_lookup_not_mem env m t _ hnmem]
        exact hlook
      · right
        refine ⟨?_, hs⟩
        rw [initAllFold_lookup_not_mem env m t _ hnmem]
        exact hlook
    · simp only [List.foldl]
      have hkeep : alookup (ModelRegistry.initAllStep env m c st).modelInstances n
          = some i := by
        rw [initAllStep_lookup_ne env m n c st hmn]
        exact hi
      exact ih _ hnd2 hkeep

/-- Claim C4: (1) a repeated `get(n)` returns the same instance and leaves
the state unchanged; (2) `get` never replaces another name's entry;
(3) `register` never touches the instance mapping; (4) `initialize_all`
preserves every existing entry's identity, except that an entry whose own
load fails is explicitly evicted. -/
theorem instanceStability :
    (∀ (env env2 : Env) (n : String) (st : RegistryState) j stA,
        ModelRegistry.get env n st = Except.ok (j, stA) →
        ModelRegistry.get env2 n stA = Except.ok (j, stA))
  ∧ (∀ (env : Env) (m n : String) (st : RegistryState) i j stA,
        alookup st.modelInstances n = some i →
        ModelRegistry.get env m st = Except.ok (j, stA) →
        alookup stA.modelInstances n = some i)
  ∧ (∀ (env : Env) (c : ModelClass) (st stA : RegistryState),
        ModelRegistry.register env c st = some stA →
        stA.modelInstances = st.modelInstances)
  ∧ (∀ (env : Env) (n : String) (st : RegistryState) (i : Instance),
        alookup st.modelInstances n = some i →
        (st.modelClasses.map Prod.fst).Nodup →
        (∃ i', alookup ((ModelRegistry.initAllModels env st).1).modelInstances n
            = some i' ∧ i'.id = i.id)
        ∨ (alookup ((ModelRegistry.initAllModels env st).1).modelInstances n = none
            ∧ env.newSession i.name = none)) := by
  refine ⟨?_, ?_, ?_, ?_⟩
  · intro env env2 n st j stA hg
    exact get_repeat env env2 n st j stA hg
  · intro env m n st i j stA hn hg
    exact get_preserves_entry env m n st i j stA hn hg
  · intro env c st stA h
    cases hk : env.ctorOk c.className with
    | false => simp [ModelRegistry.register, construct, hk] at h
    | true =>
      simp [ModelRegistry.register, construct, hk] at h
      subst h
      rfl
  · intro env n st i hi hnd
    have hmain := initAllFold_preserve env n i st.modelClasses st hnd hi
    have hproj : ((ModelRegistry.initAllModels env st).1).modelInstances
        = ((st.modelClasses.foldl (fun s p => ModelRegistry.initAllStep env p.1 p.2 s) st)).modelInstances := by
      simp [ModelRegistry.initAllModels]
    rw [hproj]
    rcases hmain with ⟨i', h1, h2, _⟩ | ⟨h1, h2⟩
    · exact Or.inl ⟨i', h1, h2⟩
    · exact Or.inr ⟨h1, h2⟩

/-- Witness for C4: the repeated-`get` part at the state after the first
`get("rembg")`, and the `initialize_all`-preservation part on the same
state. -/
theorem instanceStability_witness :
    ModelRegistry.get envOk "rembg" stW = Except.ok (instW, stW)
    ∧ ((∃ i', alookup ((ModelRegistry.initAllModels envOk stW).1).modelInstances "rembg"
          = some i' ∧ i'.id = instW.id)
       ∨ (alookup ((ModelRegistry.initAllModels envOk stW).1).modelInstances "rembg" = none
          ∧ envOk.newSession instW.name = none)) :=
  ⟨instanceStability.1 envOk envOk "rembg" st0 instW stW (by rfl),
   instanceStability.2.2.2 envOk "rembg" stW instW (by decide) (by decide)⟩

/-- Claim C6: (a) `remove_background` on an uninitialized backend performs
the on-demand initialization itself (it behaves exactly like `initialize`
followed by processing, and a load failure surfaces as the
initialization's `RuntimeError`); (b) after `initialize_all` fails to load
a registered backend, its instance is evicted, and the next `get`
constructs a brand-new instance rather than failing permanently. -/
theorem retryAfterFailure :
    (∀ (env : Env) (inst : Instance) (img : Image),
        inst.session = none →
        removeBackground env inst img
          = match initBackend env inst with
            | none => Except.error (RegError.initFailed inst.name)
            | some i => removeBackground env i img)
  ∧ (∀ (env env2 : Env) (n : String) (c : ModelClass) (st : RegistryState)
        (i0 : Instance),
        st.modelClasses = [(n, c)] →
        alookup st.modelInstances n = some i0 →
        i0.name = n →
        env.newSession n = none →
        env2.ctorOk c.className = true →
        alookup ((ModelRegistry.initAllModels env st).1).modelInstances n = none
        ∧ ∃ i st2,
            ModelRegistry.get env2 n ((ModelRegistry.initAllModels env st).1)
              = Except.ok (i, st2)
            ∧ i.session = none
            ∧ i.id = ((ModelRegistry.initAllModels env st).1).nextId
            ∧ st2.ctorTrace
              = ((ModelRegistry.initAllModels env st).1).ctorTrace ++ [c.className]) := by
  constructor
  · intro env inst img hs
    cases hb : env.newSession inst.name with
    | some s => simp [removeBackground, initBackend, hs, hb]
    | none => simp [removeBackground, initBackend, hs, hb]
  · intro env env2 n c st i0 hcls hi0 hname hfail hctor
    have hfail0 : env.newSession i0.name = none := by rw [hname]; exact hfail
    have hstepnone :
        alookup (ModelRegistry.initAllStep env n c st).modelInstances n = none := by
      rcases initAllStep_present env n c st i0 hi0 with ⟨s, hs, _⟩ | ⟨_, h2⟩
      · rw [hfail0] at hs
        exact absurd hs (by simp)
      · exact h2
    have hF1 : ((ModelRegistry.initAllModels env st).1).modelInstances
        = (ModelRegistry.initAllStep env n c st).modelInstances := by
      simp [ModelRegistry.initAllModels, hcls]
    have hFc : alookup ((ModelRegistry.initAllModels env st).1).modelClasses n
        = some c := by
      have h3 : ((ModelRegistry.initAllModels env st).1).modelClasses
          = st.modelClasses := by
        simp [ModelRegistry.initAllModels, hcls, initAllStep_classes]
      rw [h3, hcls]
      simp [alookup]
    have hFi : alookup ((ModelRegistry.initAllModels env st).1).modelInstances n
        = none := by rw [hF1]; exact hstepnone
    have hget := get_absent env2 n ((ModelRegistry.initAllModels env st).1) c hFc hFi hctor
    exact ⟨hFi, _, _, hget, rfl, rfl, rfl⟩

/-- Witness for C6: backend "a" is constructed but its load always fails
under `envLoadFails`; `initialize_all` evicts it and the next `get` under
`envOk` rebuilds it fresh, while `remove_background` on the unloaded
instance performs the load on demand. -/
theorem retryAfterFailure_witness :
    (removeBackground envOk instA0 img0
      = match initBackend envOk instA0 with
        | none => Except.error (RegError.initFailed instA0.name)
        | some i => removeBackground envOk i img0)
    ∧ (alookup ((ModelRegistry.initAllModels envLoadFails stA1).1).modelInstances "a" = none
       ∧ ∃ i st2,
           ModelRegistry.get envOk "a" ((ModelRegistry.initAllModels envLoadFails stA1).1)
             = Except.ok (i, st2)
           ∧ i.session = none
           ∧ i.id = ((ModelRegistry.initAllModels envLoadFails stA1).1).nextId
           ∧ st2.ctorTrace
             = ((ModelRegistry.initAllModels envLoadFails stA1).1).ctorTrace
                ++ [ClassA.className]) :=
  ⟨retryAfterFailure.1 envOk instA0 img0 (by decide),
   retryAfterFailure.2 envLoadFails envOk "a" ClassA stA1 instA0
     (by decide) (by decide) (by decide) (by decide) (by decide)⟩

/-- Claim C3: `initialize_all` over a registry with one backend whose load
succeeds and one whose load fails ends with the succeeding backend present
and loaded, the failing backend absent from the instance mapping, and the
call returning normally (the per-model `except` swallows the failure). -/
theorem initAllPartialFailure (env : Env) (a b : String)
    (ca cb : ModelClass) (sa : Nat)
    (hab : a ≠ b)
    (hna : ca.modelName = a) (hnb : cb.modelName = b)
    (hca : env.ctorOk ca.className = true)
    (hcb : env.ctorOk cb.className = true)
    (hia : env.newSession a = some sa)
    (hib : env.newSession b = none) :
    (∃ i, alookup ((ModelRegistry.initAllModels env (twoRegistry a ca b cb)).1).modelInstances a
        = some i ∧ i.session = some sa)
    ∧ alookup ((ModelRegistry.initAllModels env (twoRegistry a ca b cb)).1).modelInstances b
        = none := by
  subst hna
  subst hnb
  simp [ModelRegistry.initAllModels, twoRegistry, ModelRegistry.initAllStep,
    ModelRegistry.initAllTryBody, construct, initBackend, alookup, aset, aerase,
    hca, hcb, hia, hib, hab, Ne.symm hab]

/-- Witness for C3 with the concrete backends "a" (loads) and "b" (load
fails) under `envBFails`. -/
theorem initAllPartialFailure_witness :
    (∃ i, alookup ((ModelRegistry.initAllModels envBFails (twoRegistry "a" ClassA "b" ClassB)).1).modelInstances "a"
        = some i ∧ i.session = some 7)
    ∧ alookup ((ModelRegistry.initAllModels envBFails (twoRegistry "a" ClassA "b" ClassB)).1).modelInstances "b"
        = none :=
  initAllPartialFailure envBFails "a" "b" ClassA ClassB 7
    (by decide) (by decide) (by decide) (by decide) (by decide)
    (by decide) (by decide)

/-- Claim C1 (code bug): with every external operation succeeding, the
background warmup task constructs both registered models but leaves both
sessions unloaded (`_session is None`) and never invokes `initialize` —
the warmed models still face the full loading work on first request. -/
theorem warmupLeavesModelsUnloaded :
    (backgroundModelInit envOk st0).modelInstances.map (fun p => (p.1, p.2.session))
      = [("rembg", (none : Option Nat)), ("withoutbg", none)]
    ∧ (backgroundModelInit envOk st0).initTrace = [] := by
  decide

/-- Counterexample for C7: the service's entire configuration surface
(`Settings`) has no warmup-mode field — an environment that sets a
staggered-mode variable parses to exactly the same settings as an empty
environment — and the warmup task, run under any such configuration,
still constructs both models, so the mode-"none" scenario (instance
mapping stays empty) is false. -/
theorem noWarmupModeSelector_cex :
    mkSettings (fun v => if v = "STAGGERED_INIT_MODE" then some "none" else none)
      = mkSettings (fun _ => none)
    ∧ (alookup (backgroundModelInit envOk st0).modelInstances "rembg").isSome = true
    ∧ (alookup (backgroundModelInit envOk st0).modelInstances "withoutbg").isSome = true := by
  decide

/-- Amended C7: the staggered initializer consumes no mode selector; under
any environment in which the two constructors succeed it unconditionally
warms exactly "rembg" then "withoutbg", in that hardcoded order. -/
theorem warmupIgnoresConfiguration (env : Env)
    (h1 : env.ctorOk "RembgRemover" = true)
    (h2 : env.ctorOk "WithoutBgRemover" = true) :
    (backgroundModelInit env st0).ctorTrace
      = st0.ctorTrace ++ ["RembgRemover", "WithoutBgRemover"]
    ∧ (alookup (backgroundModelInit env st0).modelInstances "rembg").isSome = true
    ∧ (alookup (backgroundModelInit env st0).modelInstances "withoutbg").isSome = true := by
  have hga : ModelRegistry.get env "rembg" st0 = Except.ok (instW, stW) :=
    get_absent env "rembg" st0 RembgClass rfl rfl h1
  have hgb : ModelRegistry.get env "withoutbg" stW = Except.ok (instW2, stW2) :=
    get_absent env "withoutbg" stW WithoutBgClass rfl rfl h2
  simp [backgroundModelInit, hga, hgb]
  decide

/-- Witness for the amended C7 at `envOk`. -/
theorem warmupIgnoresConfiguration_witness :
    (backgroundModelInit envOk st0).ctorTrace
      = st0.ctorTrace ++ ["RembgRemover", "WithoutBgRemover"]
    ∧ (alookup (backgroundModelInit envOk st0).modelInstances "rembg").isSome = true
    ∧ (alookup (backgroundModelInit envOk st0).modelInstances "withoutbg").isSome = true :=
  warmupIgnoresConfiguration envOk (by decide) (by decide)

/-- Counterexample for C8: when only the first model's construction fails,
the second (perfectly healthy) model is never warmed — the single `try`
block aborts the remaining warmups — although the failure itself is caught
and logged instead of propagating. -/
theorem warmupFailureSkipsSubsequent_cex :
    alookup (backgroundModelInit envRembgCtorFails st0).modelInstances "withoutbg" = none
    ∧ envRembgCtorFails.ctorOk "WithoutBgRemover" = true
    ∧ (backgroundModelInit envRembgCtorFails st0).log.getLast?
      = some LogEvent.bgTaskFailed := by
  decide

/-- Amended C8: a failure while warming the first model is caught inside
the task (its only effect is the error log entry, so nothing propagates
and the process survives), but it aborts the warmup of every subsequent
model: the task returns with the instance mapping exactly as it was. -/
theorem warmupFailureCaughtButAborts (env : Env) (st : RegistryState)
    (h1 : alookup st.modelClasses "rembg" = some RembgClass)
    (h2 : alookup st.modelInstances "rembg" = none)
    (h3 : env.ctorOk "RembgRemover" = false) :
    backgroundModelInit env st
      = { st with log := st.log ++ [LogEvent.bgTaskFailed] } := by
  simp [backgroundModelInit, ModelRegistry.get, h1, h2, construct, RembgClass, h3]

/-- Witness for the amended C8 on the startup registry. -/
theorem warmupFailureCaughtButAborts_witness :
    backgroundModelInit envRembgCtorFails st0
      = { st0 with log := st0.log ++ [LogEvent.bgTaskFailed] } :=
  warmupFailureCaughtButAborts envRembgCtorFails st0
    (by decide) (by decide) (by decide)

/-- Counterexample for C9: on a registry where exactly one of two loads
succeeds, `initialize_all` returns `None` to its caller — no count of
successes is reported through the return value. -/
theorem initAllReturnsNoCount_cex :
    (ModelRegistry.initAllModels envBFails (twoRegistry "a" ClassA "b" ClassB)).2 = none
    ∧ ((ModelRegistry.initAllModels envBFails (twoRegistry "a" ClassA "b" ClassB)).1).modelInstances.length
      = 1 := by
  decide

/-- Amended C9: `initialize_all` never fails as a whole (it always returns
normally, with `None` as its value) and reports the count of ready models
only through its final log entry, which carries the size of the instance
mapping. -/
theorem initAllLogsCount (env : Env) (st : RegistryState) :
    (ModelRegistry.initAllModels env st).2 = none
    ∧ ((ModelRegistry.initAllModels env st).1).log.getLast?
      = some (LogEvent.initComplete
          ((ModelRegistry.initAllModels env st).1).modelInstances.length) := by
  constructor
  · simp [ModelRegistry.initAllModels]
  · simp [ModelRegistry.initAllModels, getLast?_append_singleton]
